import Mathlib

/-!
Shallow embedding of the kasi-shine-connect serverless chat/intervention
functions, for checking the specification's claims about them.

Modelled source files:
* the unauthenticated direct-chat function ("ai-chat", variant 1): body
  validation, 15 s abort timer around the upstream fetch, fallback message
  extraction, best-effort persistence of the two chat rows;
* the authenticated direct-chat function ("ai-chat", variant 2): context
  assembly from profile/performance/mentor/resource rows, unguarded upstream
  call, unguarded field access and unguarded persistence;
* the performance-intervention function: grade-based decision logic
  (isLowGrade / gradeDropped / isFirstAssessment), early return when grades
  are satisfactory, and the single assistant-row insert with metadata.

JavaScript numbers carrying grades/scores are modelled as rationals (scores
enter the system through parseFloat and a NUMERIC(5,2) column).  JavaScript
truthiness of `previous_grade` is modelled explicitly: `null`/absent and `0`
are falsy, every other number is truthy.  The external effects (upstream
HTTP call, database insert) are modelled as explicit outcome parameters, and
each handler returns its HTTP-level response together with the resulting
chat_messages table, the console output it produced, and (for variant 1)
the timer/abort bookkeeping of the outbound call.
-/

namespace KasiShine

/-- Scores and grades as carried by the JSON bodies (JS numbers). -/
abbrev Score := Rat

/-! ### Intervention decision logic (performance-intervention, lines 49-52) -/

/-- Source: `const isLowGrade = new_grade < 50;`. -/
def isLowGrade (new_grade : Score) : Bool :=
  decide (new_grade < 50)

/-- Source: `const gradeDropped = previous_grade && new_grade < previous_grade - 10;`.
JS truthiness: a `null`/absent previous grade and a previous grade of `0`
are both falsy, so the conjunction short-circuits to a falsy value. -/
def gradeDropped (new_grade : Score) (previous_grade : Option Score) : Bool :=
  match previous_grade with
  | none => false
  | some p => decide (p ≠ 0) && decide (new_grade < p - 10)

/-- Source: `const isFirstAssessment = !previous_grade;` (JS negation of
truthiness: true for `null`/absent and for `0`). -/
def isFirstAssessment (previous_grade : Option Score) : Bool :=
  match previous_grade with
  | none => true
  | some p => decide (p = 0)

/-- The handler triggers unless `(!isLowGrade && !gradeDropped)` holds
(the early-return guard on line 54), i.e. it triggers iff
`isLowGrade || gradeDropped`. -/
def interventionTrigger (new_grade : Score) (previous_grade : Option Score) : Bool :=
  isLowGrade new_grade || gradeDropped new_grade previous_grade

/-- Source, line 72: the `Status:` line of the performance context,
`isFirstAssessment ? 'First Low Grade' : isLowGrade ? 'Low Grade' : 'Grade Drop'`. -/
def statusLabel (new_grade : Score) (previous_grade : Option Score) : String :=
  if isFirstAssessment previous_grade then "First Low Grade"
  else if isLowGrade new_grade then "Low Grade"
  else "Grade Drop"

/-! ### Shared data model -/

/-- One turn of the conversation history sent by the client. -/
structure Turn where
  role : String
  content : String
deriving DecidableEq, Repr

/-- Metadata attached to the intervention's assistant row
(performance-intervention, lines 143-148). -/
structure InterventionMetadata where
  trigger : String
  subject : String
  grade : Score
  previous_grade : Option Score
deriving DecidableEq, Repr

/-- A row of the `chat_messages` table as inserted by the three handlers.
The direct-chat handlers insert rows without metadata. -/
structure ChatRow where
  student_id : Option String
  role : String
  content : String
  metadata : Option InterventionMetadata := none
deriving DecidableEq, Repr

/-- Parsed shape of the upstream chat-completion response body.
`unparseable` models a body on which `response.json()` rejects (`emsg` is
the message of the exception the JSON parser throws for that body; variant 1
turns the rejection into `data = null`).  `parsed` models a successfully
parsed body: `choicesContent` is the value found at
`choices[0].message.content` when that whole path exists, `message` is the
top-level `message` field, and `rawJson` is `JSON.stringify` of the parsed
value. -/
inductive UpstreamBody where
  | unparseable (emsg : String) (rawText : String)
  | parsed (choicesContent : Option String) (message : Option String) (rawJson : String)
deriving DecidableEq, Repr

/-- Behaviour of the upstream service as seen by variant 1's timed fetch:
it never responds, or its fetch promise rejects with a network error after
`t` ms, or it responds after `t` ms with the given status and body. -/
inductive UpstreamBehavior where
  | neverResponds
  | rejectsAt (t : Nat)
  | respondsAt (t : Nat) (status : Nat) (body : UpstreamBody)
deriving DecidableEq, Repr

/-- Behaviour of an untimed upstream call (variant 2 and the intervention
function do not set a timeout): the fetch rejects with the given error
message, or a response with the given status and body arrives. -/
inductive UpstreamResult where
  | rejects (emsg : String)
  | response (status : Nat) (body : UpstreamBody)
deriving DecidableEq, Repr

/-- Outcome of a `chat_messages` insert.  supabase-js reports database
errors by value in the result object (`errValue`), which none of the
handlers inspect; a rejected promise (`threw`, e.g. a network-level
failure) propagates as an exception with message `emsg`. -/
inductive DbOutcome where
  | ok
  | errValue (emsg : String)
  | threw (emsg : String)
deriving DecidableEq, Repr

/-- Modelled message of the TypeError a JS engine throws on a property
access through `undefined` (`data.choices[0].message.content` on a body of
an unexpected shape, or `messages[messages.length - 1].content` on an empty
array). -/
def undefinedAccessError : String :=
  "TypeError: cannot read properties of undefined"

/-- Source: `response.ok`, true iff the status is in the 2xx range. -/
def responseOk (status : Nat) : Bool :=
  decide (200 ≤ status) && decide (status < 300)

/-! ### Direct chat, variant 1 (unauthenticated `ai-chat` function) -/

/-- Request body of variant 1: `messages` is `some` exactly when
`Array.isArray(body?.messages)` holds, and `student_id` is the optional
`body?.student_id ?? null`. -/
structure V1Request where
  messages : Option (List Turn)
  student_id : Option String
deriving DecidableEq, Repr

/-- HTTP-level responses of variant 1. -/
inductive V1Response where
  | badRequest
  | serverError (details : String)
  | gatewayTimeout
  | fetchFailed
  | gatewayError (status : Nat)
  | ok (message : String) (chat_id : String)
deriving DecidableEq, Repr

/-- HTTP status code of each variant-1 response
(400 / 500 / 504 / 502 / 502 / 200 in the source). -/
def V1Response.httpStatus : V1Response → Nat
  | .badRequest => 400
  | .serverError _ => 500
  | .gatewayTimeout => 504
  | .fetchFailed => 502
  | .gatewayError _ => 502
  | .ok _ _ => 200

/-- Full observable outcome of a variant-1 invocation: the response, the
`chat_messages` table afterwards, the console lines emitted (first string
argument of each console call), the time spent waiting on the upstream,
whether the 15 s timer was cleared, and whether the pending outbound call
was aborted by the timer. -/
structure V1Result where
  response : V1Response
  log : List ChatRow
  console : List String
  elapsedMs : Nat
  timerCleared : Bool
  callAborted : Bool
deriving DecidableEq, Repr

/-- The configured bound of variant 1's outbound call:
`const timeoutMs = 15000; // 15s`. -/
def directChatTimeoutMs : Nat := 15000

/-- Result of variant 1's `fetch` raced against the abort timer, and the
time at which it settles.  `setTimeout(() => controller.abort(), timeoutMs)`
fires at `timeoutMs`, after which the fetch promise rejects with
`AbortError`; an earlier network rejection or response wins the race. -/
inductive FetchResult where
  | abortError
  | fetchError
  | response (status : Nat) (body : UpstreamBody)
deriving DecidableEq, Repr

/-- Race of the upstream behaviour against the abort timer. -/
def fetchWithTimeout (timeoutMs : Nat) : UpstreamBehavior → FetchResult × Nat
  | .neverResponds => (.abortError, timeoutMs)
  | .rejectsAt t =>
      if t < timeoutMs then (.fetchError, t) else (.abortError, timeoutMs)
  | .respondsAt t status body =>
      if t < timeoutMs then (.response status body, t) else (.abortError, timeoutMs)

/-- JS `s.slice(0, n)`: the first `n` characters of `s` (all of `s` when it
is shorter). -/
def jsSlice (s : String) (n : Nat) : String :=
  ⟨s.data.take n⟩

/-- Variant 1's fallback extraction (line 92):
`data?.choices?.[0]?.message?.content ?? data?.message ?? JSON.stringify(data).slice(0,2000)`.
When parsing failed, `data` is `null` and `JSON.stringify(null)` is the
string `"null"`. -/
def v1AiMessage : UpstreamBody → String
  | .unparseable _ _ => "null"
  | .parsed choicesContent message rawJson =>
      choicesContent.getD (message.getD (jsSlice rawJson 2000))

/-- Variant 1 of the direct-chat function (the unauthenticated `ai-chat`
handler), as a function of its request, the configuration flags (Supabase
env vars present, OpenRouter API key present), the upstream behaviour, the
database outcome, the current clock value (`Date.now()`), and the
`chat_messages` table before the call. -/
def aiChatV1 (supabaseCfg : Bool) (openrouterKey : Bool) (req : V1Request)
    (upstream : UpstreamBehavior) (db : DbOutcome) (now : Nat)
    (log : List ChatRow) : V1Result :=
  match req.messages with
  | none =>
      { response := .badRequest, log := log, console := [],
        elapsedMs := 0, timerCleared := true, callAborted := false }
  | some messages =>
      let warn : List String :=
        if supabaseCfg then []
        else ["Supabase env vars not set; DB inserts will be skipped."]
      if !openrouterKey then
        { response := .serverError "Missing OpenRouter API key", log := log,
          console := warn ++ ["Error in ai-chat function:"],
          elapsedMs := 0, timerCleared := true, callAborted := false }
      else
        match fetchWithTimeout directChatTimeoutMs upstream with
        | (.abortError, t) =>
            { response := .gatewayTimeout, log := log,
              console := warn ++ ["OpenRouter request timed out after"],
              elapsedMs := t, timerCleared := true, callAborted := true }
        | (.fetchError, t) =>
            { response := .fetchFailed, log := log,
              console := warn ++ ["OpenRouter fetch failed"],
              elapsedMs := t, timerCleared := true, callAborted := false }
        | (.response status body, t) =>
            if !responseOk status then
              { response := .gatewayError status, log := log,
                console := warn ++ ["OpenRouter API error"],
                elapsedMs := t, timerCleared := true, callAborted := false }
            else
              let aiMessage := v1AiMessage body
              let chatId := "chat_" ++ toString now ++ "_" ++ (req.student_id.getD "anon")
              let inserted : List ChatRow × List String :=
                if supabaseCfg then
                  match messages.getLast? with
                  | none =>
                      -- `messages[messages.length - 1].content` throws on an
                      -- empty array; the surrounding try/catch logs and swallows.
                      (log, ["Failed to insert chat messages:"])
                  | some lastTurn =>
                      match db with
                      | .ok =>
                          (log ++
                            [{ student_id := req.student_id, role := "user",
                               content := lastTurn.content },
                             { student_id := req.student_id, role := "assistant",
                               content := aiMessage }], [])
                      | .errValue _ => (log, [])
                      | .threw _ => (log, ["Failed to insert chat messages:"])
                else
                  (log, ["Skipping DB insert because Supabase env vars are not configured"])
              { response := .ok aiMessage chatId, log := inserted.1,
                console := warn ++ inserted.2,
                elapsedMs := t, timerCleared := true, callAborted := false }

/-! ### Context assembler (authenticated `ai-chat` function, lines 40-85) -/

/-- Student profile row, as selected from `profiles`. -/
structure Profile where
  full_name : Option String
  location : Option String
  municipality : Option String
  grade : Option Int
  school_name : Option String
deriving DecidableEq, Repr

/-- Performance record row, as selected from `performance_records`. -/
structure PerfRecord where
  subject : String
  score : Score
  attendance_percentage : Option Score
deriving DecidableEq, Repr

/-- Mentor row, as selected from `mentors`. -/
structure Mentor where
  name : String
  expertise : String
  location : String
deriving DecidableEq, Repr

/-- Support-resource row, as selected from `support_resources`. -/
structure SupportResource where
  name : String
  resource_type : String
  description : String
deriving DecidableEq, Repr

/-- Rendering of an optional string field in a template literal:
`undefined` interpolates as the string "undefined". -/
def optStr (o : Option String) : String :=
  o.getD "undefined"

/-- Rendering of an optional numeric field in a template literal. -/
def optNumStr (o : Option Int) : String :=
  (o.map toString).getD "undefined"

/-- Source: `${r.attendance_percentage || 'N/A'}` — an absent attendance
and an attendance of `0` both render as "N/A" (JS falsiness of 0). -/
def attendanceStr : Option Score → String
  | none => "N/A"
  | some a => if a = 0 then "N/A" else toString a

/-- One line of the Recent Performance section:
`- ${r.subject}: ${r.score}% (Attendance: ${r.attendance_percentage || 'N/A'}%)`. -/
def perfLine (r : PerfRecord) : String :=
  "- " ++ r.subject ++ ": " ++ toString r.score ++ "% (Attendance: " ++
    attendanceStr r.attendance_percentage ++ "%)"

/-- JS `list.join('\n') || placeholder`: the join of an empty list is the
empty string, which is falsy, so the placeholder is used. -/
def jsJoinOr (lines : List String) (placeholder : String) : String :=
  let s := String.intercalate "\n" lines
  if s = "" then placeholder else s

/-- Recent Performance section:
`recentPerformance?.map(...).join('\n') || 'No recent records'` — a `null`
fetch result short-circuits to `undefined` (falsy), an empty row list joins
to the empty string (falsy); both render the placeholder. -/
def perfSection (recs : Option (List PerfRecord)) : String :=
  match recs with
  | none => "No recent records"
  | some rs => jsJoinOr (rs.map perfLine) "No recent records"

/-- One line of the mentors section: `- ${m.name} (${m.expertise}) - ${m.location}`. -/
def mentorLine (m : Mentor) : String :=
  "- " ++ m.name ++ " (" ++ m.expertise ++ ") - " ++ m.location

/-- Available Local Mentors section. -/
def mentorsSection (ms : Option (List Mentor)) : String :=
  match ms with
  | none => "No mentors available"
  | some l => jsJoinOr (l.map mentorLine) "No mentors available"

/-- One line of the resources section: `- ${r.name} (${r.resource_type}): ${r.description}`. -/
def resourceLine (r : SupportResource) : String :=
  "- " ++ r.name ++ " (" ++ r.resource_type ++ "): " ++ r.description

/-- Support Resources section. -/
def resourcesSection (rs : Option (List SupportResource)) : String :=
  match rs with
  | none => "No resources available"
  | some l => jsJoinOr (l.map resourceLine) "No resources available"

/-- The `studentContext` template literal (lines 70-85), with `profile?.f`
accesses rendering as "undefined" when the profile row or the field is
missing. -/
def studentContext (profile : Option Profile) (recs : Option (List PerfRecord))
    (ms : Option (List Mentor)) (rs : Option (List SupportResource)) : String :=
  "\nStudent Profile:\n- Name: " ++ optStr (profile.bind Profile.full_name) ++
  "\n- Location: " ++ optStr (profile.bind Profile.location) ++ ", " ++
  optStr (profile.bind Profile.municipality) ++
  "\n- Grade: " ++ optNumStr (profile.bind Profile.grade) ++
  "\n- School: " ++ optStr (profile.bind Profile.school_name) ++
  "\n\nRecent Performance:\n" ++ perfSection recs ++
  "\n\nAvailable Local Mentors:\n" ++ mentorsSection ms ++
  "\n\nSupport Resources:\n" ++ resourcesSection rs ++ "\n"

/-! ### Direct chat, variant 2 (authenticated `ai-chat` function) -/

/-- Request of variant 2: the destructured `messages` field and the
`Authorization` header. -/
structure V2Request where
  messages : List Turn
  authHeader : Option String
deriving DecidableEq, Repr

/-- Result of `supabase.auth.getUser(token)`. -/
inductive AuthResult where
  | valid (userId : String)
  | invalid
deriving DecidableEq, Repr

/-- HTTP-level responses of variant 2: a 200 with the reply, or the
generic catch-all 500 carrying the thrown error's message. -/
inductive V2Response where
  | ok (message : String)
  | error (emsg : String)
deriving DecidableEq, Repr

/-- HTTP status code of each variant-2 response. -/
def V2Response.httpStatus : V2Response → Nat
  | .ok _ => 200
  | .error _ => 500

/-- Variant 2 of the direct-chat function (the authenticated `ai-chat`
handler).  Every failure path throws into the single catch-all handler,
which responds 500 with the error message.  The context assembly feeding
the system prompt is the pure `studentContext` above and does not influence
the response or the log, so the handler is modelled over the auth result,
the upstream result and the database outcome.  Returns the response and the
`chat_messages` table afterwards. -/
def aiChatV2 (req : V2Request) (auth : AuthResult)
    (upstream : UpstreamResult) (db : DbOutcome)
    (log : List ChatRow) : V2Response × List ChatRow :=
  match req.authHeader with
  | none => (.error "No authorization header", log)
  | some _ =>
      match auth with
      | .invalid => (.error "Unauthorized", log)
      | .valid userId =>
          match upstream with
          | .rejects emsg => (.error emsg, log)
          | .response status body =>
              if !responseOk status then
                (.error ("AI API error: " ++ toString status), log)
              else
                match body with
                | .unparseable emsg _ =>
                    -- `await response.json()` rejects; nothing catches it
                    -- before the generic handler.
                    (.error emsg, log)
                | .parsed choicesContent _ _ =>
                    match choicesContent with
                    | none =>
                        -- unguarded `data.choices[0].message.content`
                        (.error undefinedAccessError, log)
                    | some assistantMessage =>
                        match req.messages.getLast? with
                        | none =>
                            -- unguarded `messages[messages.length - 1].content`
                            (.error undefinedAccessError, log)
                        | some lastTurn =>
                            match db with
                            | .threw emsg => (.error emsg, log)
                            | .errValue _ => (.ok assistantMessage, log)
                            | .ok =>
                                (.ok assistantMessage,
                                 log ++
                                   [{ student_id := some userId, role := "user",
                                      content := lastTurn.content },
                                    { student_id := some userId, role := "assistant",
                                      content := assistantMessage }])

/-! ### Performance-intervention function -/

/-- Request body of the performance-intervention function. -/
structure PIRequest where
  student_id : String
  subject : String
  new_grade : Score
  previous_grade : Option Score
deriving DecidableEq, Repr

/-- HTTP-level responses of the performance-intervention function: the two
200 shapes and the catch-all 500 (which also carries
`intervention_triggered: false`). -/
inductive PIResponse where
  | notTriggered (reason : String)
  | triggered (message : String) (subject : String) (chat_id : String)
  | error (emsg : String)
deriving DecidableEq, Repr

/-- HTTP status code of each performance-intervention response. -/
def PIResponse.httpStatus : PIResponse → Nat
  | .notTriggered _ => 200
  | .triggered _ _ _ => 200
  | .error _ => 500

/-- Full observable outcome of a performance-intervention invocation:
the response, the `chat_messages` table afterwards, and whether the
AI gateway was called. -/
structure PIResult where
  response : PIResponse
  log : List ChatRow
  aiCalled : Bool
deriving DecidableEq, Repr

/-- The performance-intervention function, as a function of the
configuration flags, the request, the upstream result (its fetch has no
timeout), the database outcome, the clock, and the `chat_messages` table
before the call.  The profile/material/mentor fetches preceding the
decision only feed the prompt text and cannot throw (their results are
destructured without checks), so they do not appear. -/
def performanceIntervention (supabaseCfg : Bool) (openrouterKey : Bool)
    (req : PIRequest) (upstream : UpstreamResult) (db : DbOutcome)
    (now : Nat) (log : List ChatRow) : PIResult :=
  if !supabaseCfg then
    { response := .error "Missing Supabase environment variables", log := log,
      aiCalled := false }
  else if !interventionTrigger req.new_grade req.previous_grade then
    { response := .notTriggered "Grades satisfactory", log := log,
      aiCalled := false }
  else if !openrouterKey then
    { response := .error "Missing OpenRouter API key", log := log,
      aiCalled := false }
  else
    match upstream with
    | .rejects emsg => { response := .error emsg, log := log, aiCalled := true }
    | .response status body =>
        if !responseOk status then
          { response := .error ("OpenRouter API error: " ++ toString status),
            log := log, aiCalled := true }
        else
          match body with
          | .unparseable emsg _ =>
              { response := .error emsg, log := log, aiCalled := true }
          | .parsed choicesContent _ _ =>
              match choicesContent with
              | none =>
                  -- unguarded `data.choices[0].message.content`
                  { response := .error undefinedAccessError, log := log,
                    aiCalled := true }
              | some aiMessage =>
                  let chatId :=
                    "intervention_" ++ toString now ++ "_" ++ req.student_id
                  match db with
                  | .threw emsg =>
                      { response := .error emsg, log := log, aiCalled := true }
                  | .errValue _ =>
                      { response := .triggered aiMessage req.subject chatId,
                        log := log, aiCalled := true }
                  | .ok =>
                      { response := .triggered aiMessage req.subject chatId,
                        log := log ++
                          [{ student_id := some req.student_id,
                             role := "assistant", content := aiMessage,
                             metadata := some
                               { trigger := "performance_intervention",
                                 subject := req.subject,
                                 grade := req.new_grade,
                                 previous_grade := req.previous_grade } }],
                        aiCalled := true }

/-! ### Literal-containment predicate for the assembled context -/

/-- The string `lit` occurs literally inside `s`. -/
def containsLit (s lit : String) : Prop :=
  ∃ pre post, s.data = pre ++ lit.data ++ post

/-- A concrete conversation turn used by the concrete-input theorems. -/
def demoTurn : Turn :=
  { role := "user", content := "Hello" }

/-- A concrete well-formed upstream body used by the concrete-input
theorems. -/
def demoBody : UpstreamBody :=
  .parsed (some "reply") none "raw json"

/-! ### Helper lemmas -/

/-- A string contains itself as a literal. -/
theorem containsLit_refl (lit : String) : containsLit lit lit :=
  ⟨[], [], by simp⟩

/-- Appending on the right preserves literal containment. -/
theorem containsLit_append_right {s : String} (t lit : String)
    (h : containsLit s lit) : containsLit (s ++ t) lit := by
  obtain ⟨pre, post, hs⟩ := h
  exact ⟨pre, post ++ t.data, by simp [hs]⟩

/-- Appending on the left preserves literal containment. -/
theorem containsLit_append_left {s : String} (t lit : String)
    (h : containsLit s lit) : containsLit (t ++ s) lit := by
  obtain ⟨pre, post, hs⟩ := h
  exact ⟨t.data ++ pre, post, by simp [hs]⟩

/-! ### Claims -/

/-- C1: for every `new_score < 50`, the intervention decision logic of the
performance-intervention handler returns trigger = true, for every value of
`previous_score` (null or any number). -/
theorem c1_low_score_always_triggers (new_grade : Score)
    (previous_grade : Option Score) (h : new_grade < 50) :
    interventionTrigger new_grade previous_grade = true := by
  simp [interventionTrigger, isLowGrade, h]

/-- Witness for C1 at `new_score = 45`, `previous_score = 90`. -/
theorem c1_low_score_always_triggers_witness :
    interventionTrigger 45 (some 90) = true :=
  c1_low_score_always_triggers 45 (some 90) (by norm_num)

/-- C2 counterexample: at `new_score = 40`, `previous_score = 0`, the claim
demands the label "Low Grade" (`is_low` holds and the previous score is not
null), but the code computes `isFirstAssessment = !previous_grade = true`
for a previous score of `0` and labels the situation "First Low Grade":
a previous score of `0` does NOT count as a present previous score. -/
theorem c2_zero_previous_counterexample :
    interventionTrigger 40 (some 0) = true ∧
    statusLabel 40 (some 0) = "First Low Grade" ∧
    statusLabel 40 (some 0) ≠ "Low Grade" := by
  refine ⟨by decide, by decide, by decide⟩

/-- C2 amended: `dropped` holds iff the previous score is present AND
non-zero AND `new_score < previous_score - 10` (JS truthiness makes a
previous score of `0` behave like an absent one); when the handler
triggers, the label is "First Low Grade" iff the previous score is null or
`0`, "Low Grade" iff `new_score < 50` and the previous score is present and
non-zero, and "Grade Drop" iff `new_score ≥ 50` and the drop condition
holds (previous present, non-zero, `new_score < previous_score - 10`). -/
theorem c2_amended_truthiness_labels (n : Score) (p : Option Score) :
    (gradeDropped n p = true ↔ ∃ q, p = some q ∧ q ≠ 0 ∧ n < q - 10) ∧
    (interventionTrigger n p = true →
      ((statusLabel n p = "First Low Grade" ↔ (p = none ∨ p = some 0)) ∧
       (statusLabel n p = "Low Grade" ↔ (n < 50 ∧ ∃ q, p = some q ∧ q ≠ 0)) ∧
       (statusLabel n p = "Grade Drop" ↔
         (50 ≤ n ∧ ∃ q, p = some q ∧ q ≠ 0 ∧ n < q - 10)))) := by
  cases p with
  | none =>
      refine ⟨by simp [gradeDropped], fun htrig => ?_⟩
      have hn : n < 50 := by
        simpa [interventionTrigger, isLowGrade, gradeDropped] using htrig
      simp [statusLabel, isFirstAssessment, hn]
  | some q =>
      by_cases hq : q = 0
      · subst hq
        refine ⟨by simp [gradeDropped], fun htrig => ?_⟩
        have hn : n < 50 := by
          simpa [interventionTrigger, isLowGrade, gradeDropped] using htrig
        simp [statusLabel, isFirstAssessment, hn]
      · refine ⟨by simp [gradeDropped, hq], fun htrig => ?_⟩
        by_cases hn : n < 50
        · have h50 : ¬ 50 ≤ n := not_le.mpr hn
          simp [statusLabel, isFirstAssessment, isLowGrade, hq, hn, h50]
        · have hover : 50 ≤ n := not_lt.mp hn
          have hdrop : n < q - 10 := by
            have := htrig
            simp [interventionTrigger, isLowGrade, gradeDropped, hn, hq] at this
            exact this
          simp [statusLabel, isFirstAssessment, isLowGrade, hq, hn, hover, hdrop]

/-- Witness for C2's amended claim at `new_score = 40`,
`previous_score = 60`: the label is "Low Grade". -/
theorem c2_amended_truthiness_labels_witness :
    statusLabel 40 (some 60) = "Low Grade" :=
  (((c2_amended_truthiness_labels 40 (some 60)).2 (by decide)).2.1).mpr
    ⟨by norm_num, 60, rfl, by norm_num⟩

/-- C3: whenever `new_score ≥ 50` and the previous score is null or
satisfies `new_score ≥ previous_score - 10`, the performance-intervention
handler returns `intervention_triggered: false` with reason "Grades
satisfactory", makes no AI-gateway call, and leaves `chat_messages`
unchanged (for any upstream behaviour, database outcome, clock and
OpenRouter-key configuration, with the Supabase configuration present). -/
theorem c3_satisfactory_no_effects (openrouterKey : Bool) (req : PIRequest)
    (upstream : UpstreamResult) (db : DbOutcome) (now : Nat)
    (log : List ChatRow)
    (h50 : 50 ≤ req.new_grade)
    (hprev : ∀ q, req.previous_grade = some q → q - 10 ≤ req.new_grade) :
    performanceIntervention true openrouterKey req upstream db now log =
      { response := .notTriggered "Grades satisfactory", log := log,
        aiCalled := false } := by
  have htrig : interventionTrigger req.new_grade req.previous_grade = false := by
    cases hp : req.previous_grade with
    | none =>
        simp [interventionTrigger, isLowGrade, gradeDropped, hp,
          not_lt.mpr h50]
    | some q =>
        have hle := hprev q hp
        simp [interventionTrigger, isLowGrade, gradeDropped, hp,
          not_lt.mpr h50, not_lt.mpr hle]
  simp [performanceIntervention, htrig]

/-- Witness for C3 at the spec scenario `new_score = 78`,
`previous_score = 80`. -/
theorem c3_satisfactory_no_effects_witness :
    performanceIntervention true true
        { student_id := "s1", subject := "Math", new_grade := 78,
          previous_grade := some 80 }
        (.response 200 demoBody) .ok 0 [] =
      { response := .notTriggered "Grades satisfactory", log := [],
        aiCalled := false } :=
  c3_satisfactory_no_effects true
    { student_id := "s1", subject := "Math", new_grade := 78,
      previous_grade := some 80 }
    (.response 200 demoBody) .ok 0 [] (by norm_num)
    (by intro q hq; simp only [Option.some.injEq] at hq; subst hq; norm_num)

/-- C4: on every triggering input on which the AI call succeeds (the
upstream responds 2xx with a body carrying `choices[0].message.content`)
and the insert succeeds, the performance-intervention handler appends
exactly one row to `chat_messages` — an assistant-role row with metadata
`trigger = "performance_intervention"` and the request's subject and
grades — appends no user-role row, and responds
`intervention_triggered: true` with the reply text, the subject, and the
generated chat identifier. -/
theorem c4_triggered_appends_one_assistant_row (req : PIRequest)
    (status : Nat) (m : Option String) (raw msg : String) (now : Nat)
    (log : List ChatRow)
    (htrig : interventionTrigger req.new_grade req.previous_grade = true)
    (hok : responseOk status = true) :
    performanceIntervention true true req
        (.response status (.parsed (some msg) m raw)) .ok now log =
      { response := .triggered msg req.subject
          ("intervention_" ++ toString now ++ "_" ++ req.student_id),
        log := log ++
          [{ student_id := some req.student_id, role := "assistant",
             content := msg,
             metadata := some
               { trigger := "performance_intervention",
                 subject := req.subject, grade := req.new_grade,
                 previous_grade := req.previous_grade } }],
        aiCalled := true } := by
  simp [performanceIntervention, htrig, hok]

/-- Witness for C4 at `new_score = 40` with no previous score and the
upstream replying "Hang in there". -/
theorem c4_triggered_appends_one_assistant_row_witness :
    performanceIntervention true true
        { student_id := "s1", subject := "Math", new_grade := 40,
          previous_grade := none }
        (.response 200 (.parsed (some "Hang in there") none "raw")) .ok 7 [] =
      { response := .triggered "Hang in there" "Math" "intervention_7_s1",
        log :=
          [{ student_id := some "s1", role := "assistant",
             content := "Hang in there",
             metadata := some
               { trigger := "performance_intervention", subject := "Math",
                 grade := 40, previous_grade := none } }],
        aiCalled := true } :=
  c4_triggered_appends_one_assistant_row
    { student_id := "s1", subject := "Math", new_grade := 40,
      previous_grade := none }
    200 none "raw" "Hang in there" 7 [] (by decide) (by decide)

/-- C5 at a failing input: in the authenticated direct-chat variant the
`chat_messages` insert is not guarded by any try/catch, so after a
successfully produced reply a throwing persistence failure propagates to
the generic handler and the endpoint responds 500 — it is neither logged
at the insert site nor swallowed.  The unauthenticated variant, at the
same input, behaves as the claim states: it logs the failure and still
returns 200 with the reply. -/
theorem c5_unguarded_insert_fails_request :
    (aiChatV2 { messages := [demoTurn], authHeader := some "Bearer token" }
        (.valid "u1") (.response 200 demoBody)
        (.threw "database write failed") []) =
      (.error "database write failed", []) ∧
    V2Response.httpStatus (.error "database write failed") = 500 ∧
    aiChatV1 true true { messages := some [demoTurn], student_id := some "u1" }
        (.respondsAt 0 200 demoBody) (.threw "database write failed") 5 [] =
      { response := .ok "reply" "chat_5_u1", log := [],
        console := ["Failed to insert chat messages:"],
        elapsedMs := 0, timerCleared := true, callAborted := false } :=
  ⟨rfl, rfl, rfl⟩

/-- C6 at a failing input: on an upstream 500 the authenticated
direct-chat variant throws `AI API error: 500` into its catch-all handler
and responds with a generic 500, while the unauthenticated variant
responds 502 as the claim states. -/
theorem c6_upstream_500_surfaces_as_generic_500 :
    (aiChatV2 { messages := [demoTurn], authHeader := some "Bearer token" }
        (.valid "u1") (.response 500 (.unparseable "parse error" "err page"))
        .ok []).1 =
      .error "AI API error: 500" ∧
    V2Response.httpStatus (.error "AI API error: 500") = 500 ∧
    (aiChatV1 true true { messages := some [demoTurn], student_id := some "u1" }
        (.respondsAt 0 500 (.unparseable "parse error" "err page"))
        .ok 5 []).response =
      .gatewayError 500 ∧
    V1Response.httpStatus (.gatewayError 500) = 502 :=
  ⟨rfl, rfl, rfl, rfl⟩

/-- C7: whenever the upstream never responds, the unauthenticated
direct-chat handler settles exactly at its configured 15-second bound
(`directChatTimeoutMs = 15000` ms), responds with the timeout failure
(HTTP 504), leaves `chat_messages` unchanged, clears its timer and aborts
the pending outbound call (no leak), for every request with a messages
array, student id, database outcome, clock and Supabase configuration. -/
theorem c7_timeout_bound_and_cleanup (supabaseCfg : Bool) (msgs : List Turn)
    (sid : Option String) (db : DbOutcome) (now : Nat) (log : List ChatRow) :
    aiChatV1 supabaseCfg true { messages := some msgs, student_id := sid }
        .neverResponds db now log =
      { response := .gatewayTimeout, log := log,
        console :=
          (if supabaseCfg then []
           else ["Supabase env vars not set; DB inserts will be skipped."]) ++
          ["OpenRouter request timed out after"],
        elapsedMs := directChatTimeoutMs, timerCleared := true,
        callAborted := true } ∧
    V1Response.httpStatus .gatewayTimeout = 504 ∧
    directChatTimeoutMs = 15000 := by
  refine ⟨?_, rfl, rfl⟩
  simp [aiChatV1, fetchWithTimeout]

/-- C8 at a failing input: the authenticated direct-chat variant
propagates a JSON-parse exception (and likewise the TypeError from the
unguarded `data.choices[0].message.content` access) into its generic 500
handler and returns no reply, while the unauthenticated variant degrades
as the claim states: it falls back to `"null"` for an unparseable body
and to the raw JSON string truncated to 2000 characters for a body of an
unexpected shape, and still returns a 200 reply. -/
theorem c8_v2_propagates_parse_failures :
    (aiChatV2 { messages := [demoTurn], authHeader := some "Bearer token" }
        (.valid "u1") (.response 200 (.unparseable "bad json token" "html body"))
        .ok []).1 =
      .error "bad json token" ∧
    (aiChatV2 { messages := [demoTurn], authHeader := some "Bearer token" }
        (.valid "u1") (.response 200 (.parsed none none "raw json"))
        .ok []).1 =
      .error undefinedAccessError ∧
    (aiChatV1 true true { messages := some [demoTurn], student_id := some "u1" }
        (.respondsAt 0 200 (.unparseable "bad json token" "html body"))
        .ok 5 []).response =
      .ok "null" "chat_5_u1" ∧
    (aiChatV1 true true { messages := some [demoTurn], student_id := some "u1" }
        (.respondsAt 0 200 (.parsed none none "raw json")) .ok 5 []).response =
      .ok "raw json" "chat_5_u1" :=
  ⟨rfl, rfl, rfl, rfl⟩

/-- C9: for every student (any profile, mentors and resources), when the
performance fetch yields zero rows the Recent Performance section renders
the literal placeholder "No recent records", and the assembled context
contains that literal (the assembler is a total function: it cannot
throw). -/
theorem c9_zero_records_renders_placeholder (profile : Option Profile)
    (ms : Option (List Mentor)) (rs : Option (List SupportResource)) :
    perfSection (some []) = "No recent records" ∧
    containsLit (studentContext profile (some []) ms rs)
      "No recent records" := by
  refine ⟨rfl, ?_⟩
  unfold studentContext
  apply containsLit_append_right
  apply containsLit_append_right
  apply containsLit_append_right
  apply containsLit_append_right
  apply containsLit_append_right
  apply containsLit_append_left
  exact containsLit_refl "No recent records"

/-- C10: the empty messages array passes the unauthenticated direct-chat
handler's validation — `Array.isArray([])` holds, so no 400 is returned,
for every configuration, upstream behaviour and database outcome — and
the element the later persistence step reads
(`messages[messages.length - 1]`) does not exist in the empty array. -/
theorem c10_empty_messages_accepted (sid : Option String)
    (upstream : UpstreamBehavior) (db : DbOutcome) (now : Nat)
    (log : List ChatRow) (supabaseCfg openrouterKey : Bool) :
    (aiChatV1 supabaseCfg openrouterKey
        { messages := some [], student_id := sid }
        upstream db now log).response ≠ .badRequest ∧
    (([] : List Turn)).getLast? = none := by
  refine ⟨?_, rfl⟩
  cases openrouterKey with
  | false => simp [aiChatV1]
  | true =>
      cases upstream with
      | neverResponds => simp [aiChatV1, fetchWithTimeout]
      | rejectsAt t =>
          by_cases ht : t < directChatTimeoutMs <;>
            simp [aiChatV1, fetchWithTimeout, ht]
      | respondsAt t status body =>
          by_cases ht : t < directChatTimeoutMs
          · by_cases hok : responseOk status = true
            · cases db <;> simp [aiChatV1, fetchWithTimeout, ht, hok]
            · have hfalse : responseOk status = false := by
                cases h : responseOk status with
                | true => exact absurd h hok
                | false => rfl
              simp [aiChatV1, fetchWithTimeout, ht, hfalse]
          · simp [aiChatV1, fetchWithTimeout, ht]

end KasiShine
